import Mathlib

/-! Shallow embedding of the containerlab deployment orchestration
(cmd/deploy.go) and the Arista cEOS node lifecycle (nodes/ceos package).
Pure Go functions become Lean functions; calls into the container runtime
and the filesystem are modelled by explicit oracles together with a trace
of the effects the code performs. -/

/-- Errors are plain messages, mirroring Go error strings. -/
abbrev Err := String

/-- Runtime-observed network settings of a container
(types.GenericContainer.NetworkSettings). -/
structure NetworkSettings where
  set : Bool
  ipv4addr : String
  ipv4pLen : Int
  ipv6addr : String
  ipv6pLen : Int
deriving Repr, DecidableEq

/-- Runtime-observed container record (types.GenericContainer): the fields
the deploy command reads. -/
structure GenericContainer where
  id : String
  names : List String
  labels : List (String × String)
  networkSettings : NetworkSettings
deriving Repr, DecidableEq

/-- Go string-map lookup with the zero-value default for a missing key. -/
def goMapGet (m : List (String × String)) (k : String) : String :=
  match m.find? (fun p => p.1 == k) with
  | some p => p.2
  | none => ""

/-- strings.TrimLeft(s, "/") : drop every leading slash character. -/
def trimLeftSlash (s : String) : String :=
  String.mk (s.toList.dropWhile (fun c => c == '/'))

/-- One loop iteration of hostsEntries (cmd/deploy.go lines 231-248): the
text a single container contributes to the hosts blob. -/
def hostsEntryOf (cont : GenericContainer) : String :=
  if cont.names.length = 0 then ""
  else if cont.networkSettings.set then
    (if cont.networkSettings.ipv4addr ≠ "" then
      cont.networkSettings.ipv4addr ++ "\t" ++ trimLeftSlash (cont.names.getD 0 "") ++ "\n"
     else "") ++
    (if cont.networkSettings.ipv6addr ≠ "" then
      cont.networkSettings.ipv6addr ++ "\t" ++ trimLeftSlash (cont.names.getD 0 "") ++ "\n"
     else "")
  else ""

/-- hostsEntries (cmd/deploy.go lines 229-251) builds the /etc/hosts text
blob for the containers; the loop never reads bridgeName. -/
def hostsEntries (containers : List GenericContainer) (bridgeName : String) : String :=
  containers.foldl (fun buff cont => buff ++ hostsEntryOf cont) ""

/-- Filesystem operations createHostsFile can perform on /etc/hosts. -/
inductive FsOp where
  | openHosts
  | writeStr (s : String)
deriving Repr, DecidableEq

/-- Outcomes of the three filesystem calls inside createHostsFile:
os.OpenFile, the newline WriteString, and the data Write. -/
structure FsOracle where
  openResult : Except Err Unit
  writeNewline : Except Err Unit
  writeData : Except Err Unit

/-- createHostsFile (cmd/deploy.go lines 204-226): guard the bridge name,
build the blob, and append it to /etc/hosts, returning the attempted
filesystem operations alongside the result. -/
def createHostsFile (fs : FsOracle) (containers : List GenericContainer)
    (bridgeName : String) : List FsOp × Except Err Unit :=
  if bridgeName = "" then ([], .error "missing bridge name")
  else
    let data := hostsEntries containers bridgeName
    if data.length = 0 then ([], .ok ())
    else
      match fs.openResult with
      | .error e => ([.openHosts], .error e)
      | .ok _ =>
        match fs.writeNewline with
        | .error e => ([.openHosts, .writeStr "\n"], .error e)
        | .ok _ =>
          match fs.writeData with
          | .error e => ([.openHosts, .writeStr "\n", .writeStr data], .error e)
          | .ok _ => ([.openHosts, .writeStr "\n", .writeStr data], .ok ())

/-- Worker-limit computation of deployCmd.RunE (cmd/deploy.go lines
103-118), identical for nodes and links: start from the configured
maximum, substitute the item count when the maximum is zero, then clamp
down to the item count. -/
def computeWorkers (maxWorkers n : Nat) : Nat :=
  let w := if maxWorkers = 0 then n else maxWorkers
  if w > n then n else w

/-- Splits a character list into the newline-terminated lines of a blob;
the first argument accumulates the current line in reverse. -/
def breakLines : List Char → List Char → List String
  | acc, [] => if acc.isEmpty then [] else [String.mk acc.reverse]
  | acc, c :: cs =>
    if c = '\n' then String.mk acc.reverse :: breakLines [] cs
    else breakLines (c :: acc) cs

/-- The lines of a hosts blob. -/
def linesOf (s : String) : List String := breakLines [] s.toList

/-- The fields of types.NodeBase that enrichNodes reads or writes. -/
structure NodeBase where
  shortName : String
  networkMode : String
  mgmtIPv4Address : String
  mgmtIPv4PrefixLength : Int
  mgmtIPv6Address : String
  mgmtIPv6PrefixLength : Int
  containerID : String
deriving Repr, DecidableEq

/-- strings.ToLower restricted to the ASCII range, which covers the
"host" comparison in enrichNodes. -/
def goToLower (s : String) : String := String.mk (s.toList.map Char.toLower)

/-- The node-name correlation label read by enrichNodes. -/
def contNodeName (c : GenericContainer) : String := goMapGet c.labels "clab-node-name"

/-- Effect of one matched, non-host container on its node: the body of the
enrichNodes loop after the host-mode check (cmd/deploy.go lines 263-270). -/
def applyContainer (c : GenericContainer) (node : NodeBase) : NodeBase :=
  let node :=
    if c.networkSettings.set then
      { node with
        mgmtIPv4Address := c.networkSettings.ipv4addr
        mgmtIPv4PrefixLength := c.networkSettings.ipv4pLen
        mgmtIPv6Address := c.networkSettings.ipv6addr
        mgmtIPv6PrefixLength := c.networkSettings.ipv6pLen }
    else node
  { node with containerID := c.id }

/-- The node map of the lab, keyed by node name. -/
abbrev NodeMap := String → Option NodeBase

/-- Pointwise update of the node map, modelling the in-place mutation of
the matched node. -/
def updateNode (m : NodeMap) (k : String) (v : NodeBase) : NodeMap :=
  fun x => if x = k then some v else m x

/-- One iteration of the enrichNodes loop on the node map: look the
container's node up by the node-name label, skip host-networking nodes,
otherwise apply the container's data to the matched node. -/
def enrichStepMap (m : NodeMap) (c : GenericContainer) : NodeMap :=
  match m (contNodeName c) with
  | some node =>
    if goToLower node.networkMode = "host" then m
    else updateNode m (contNodeName c) (applyContainer c node)
  | none => m

/-- enrichNodes (cmd/deploy.go lines 253-274): correlate each container to
a node by the node-name label, skip host-networking nodes, copy the
management addresses when the network settings are populated, and always
record the container ID; mgmtNet is unused by the loop body. -/
def enrichNodes (containers : List GenericContainer) (nodes : NodeMap)
    (mgmtNet : String) : NodeMap :=
  containers.foldl enrichStepMap nodes

/-- One enrichment step as seen by a single node: skip when the node uses
host networking, otherwise apply the container's data. -/
def stepNode (node : NodeBase) (c : GenericContainer) : NodeBase :=
  if goToLower node.networkMode = "host" then node else applyContainer c node

/-- Sequential application of the containers matched to one node. -/
def applySeq (cs : List GenericContainer) (node : NodeBase) : NodeBase :=
  cs.foldl stepNode node

/-- Sequential application ignoring the host check (used to characterize
applySeq on non-host nodes). -/
def applyAll (cs : List GenericContainer) (node : NodeBase) : NodeBase :=
  cs.foldl (fun n c => applyContainer c n) node

/-- The container ID that survives a sequence of unconditional writes:
the last container's ID, or the default when the list is empty. -/
def lastIdD (cs : List GenericContainer) (d : String) : String :=
  cs.foldl (fun _a c => c.id) d

/-- The field value that survives a sequence of writes guarded by the
network-settings flag: the last flagged container's value, else the
default. -/
def lastSetVal {α : Type} (f : GenericContainer → α) (cs : List GenericContainer)
    (d : α) : α :=
  cs.foldl (fun a c => if c.networkSettings.set then f c else a) d

/-- The per-node desired and observed state (types.NodeConfig): the fields
the cEOS lifecycle reads or writes. -/
structure NodeConfig where
  shortName : String
  longName : String
  containerID : String
  resConfig : String
  nsPath : String
  macAddress : String
  labDir : String
deriving Repr, DecidableEq

/-- The kind-specific default environment of cEOS (ceosEnv). -/
def ceosEnv : List (String × String) :=
  [("CEOS", "1"), ("EOS_PLATFORM", "ceoslab"), ("container", "docker"),
   ("ETBA", "4"), ("SKIP_ZEROTOUCH_BARRIER_IN_SYSDBINIT", "1"),
   ("INTFTYPE", "eth"), ("MAPETH0", "1"), ("MGMT_INTF", "eth0")]

/-- The command line ceos.Init builds, as a function of the order in which
Go's map range statement delivers the merged environment entries; the Go
specification leaves that order unspecified and the runtime randomizes
it, so Init's output is this function of a nondeterministically chosen
permutation of the merged map's entries. -/
def ceosCmdOfEnvOrder (envOrder : List (String × String)) : String :=
  envOrder.foldl (fun sb kv => sb ++ "systemd.setenv=" ++ kv.1 ++ "=" ++ kv.2 ++ " ")
    "/sbin/init "

/-- Hex digit value of a character, as net.ParseMAC accepts it. -/
def hexDigitVal (ch : Char) : Option Nat :=
  if '0' ≤ ch ∧ ch ≤ '9' then some (ch.toNat - '0'.toNat)
  else if 'a' ≤ ch ∧ ch ≤ 'f' then some (ch.toNat - 'a'.toNat + 10)
  else if 'A' ≤ ch ∧ ch ≤ 'F' then some (ch.toNat - 'A'.toNat + 10)
  else none

/-- Parse one two-digit hex group into a byte value. -/
def parseHexByte : List Char → Option Nat
  | [h, l] => do
    let hv ← hexDigitVal h
    let lv ← hexDigitVal l
    some (hv * 16 + lv)
  | _ => none

/-- Split a character list on colons; the first argument accumulates the
current group in reverse. -/
def splitGroups : List Char → List Char → List (List Char)
  | acc, [] => [acc.reverse]
  | acc, c :: cs =>
    if c = ':' then acc.reverse :: splitGroups [] cs
    else splitGroups (c :: acc) cs

/-- net.ParseMAC restricted to the six-byte colon-separated form, the only
form utils.GenMac produces for cEOS nodes; bytes are Nats below 256. -/
def parseMAC (s : String) : Option (List Nat) :=
  let groups := splitGroups [] s.toList
  if groups.length = 6 then groups.mapM parseHexByte else none

/-- Render a byte as two lowercase hex digits, as net.HardwareAddr.String
does. -/
def byteToHex (b : Nat) : String :=
  let hexChar : Nat → Char := fun n =>
    if n < 10 then Char.ofNat ('0'.toNat + n) else Char.ofNat ('a'.toNat + n - 10)
  String.mk [hexChar (b / 16), hexChar (b % 16)]

/-- net.HardwareAddr.String for a byte list: colon-separated hex groups. -/
def macString (bytes : List Nat) : String :=
  String.intercalate ":" (bytes.map byteToHex)

/-- The system MAC derived in createCEOSFiles: m[5] = m[5] + 1 on a Go
byte, which wraps modulo 256. -/
def sysMacOfMgmt (m : List Nat) : List Nat :=
  m.set 5 ((m.getD 5 0 + 1) % 256)

/-- createCEOSFiles (nodes/ceos lines 92-106): record the startup-config
path on the node, parse the management MAC, and write the system-MAC file
whose content is the MAC with its last octet incremented; directory
creation is elided, and the result carries the updated node together with
the written file's path and content. -/
def createCEOSFiles (node : NodeConfig) : Except Err (NodeConfig × String × String) :=
  let cfg := node.labDir ++ "/flash/startup-config"
  match parseMAC node.macAddress with
  | none => .error "invalid MAC address"
  | some m =>
    .ok ({ node with resConfig := cfg },
         node.labDir ++ "/flash/system_mac_address",
         macString (sysMacOfMgmt m))

/-- The runtime and host-filesystem effects ceosPostDeploy performs. -/
inductive Effect where
  | genConfig (dst : String)
  | stopC (id : String) (timeoutNs : Nat)
  | delNetnsSymlink (name : String)
  | startC (id : String)
  | getNSPathE (id : String)
  | linkNS (nsPath : String) (name : String)
deriving Repr, DecidableEq

/-- Outcomes of the runtime and utility calls made by ceosPostDeploy; the
embedded config template is an external read-only asset and only the
render outcome is modelled. -/
structure CeosRuntime where
  generateConfig : String → Except Err Unit
  stopContainer : String → Except Err Unit
  deleteNetnsSymlink : String → Except Err Unit
  startContainer : String → Except Err Unit
  getNSPath : String → Except Err String
  linkContainerNS : String → String → Except Err Unit

/-- ceosPostDeploy (nodes/ceos lines 108-135): render the final config to
the node's startup-config path, stop the container with a one-nanosecond
forced timeout, remove the stale netns symlink, start the container,
resolve the new namespace path, and re-create the symlink; each failure
returns immediately. The trace lists the calls attempted, in order. -/
def ceosPostDeploy (r : CeosRuntime) (nodeCfg : NodeConfig) :
    List Effect × Except Err NodeConfig :=
  match r.generateConfig nodeCfg.resConfig with
  | .error e => ([.genConfig nodeCfg.resConfig], .error e)
  | .ok _ =>
    match r.stopContainer nodeCfg.containerID with
    | .error e =>
      ([.genConfig nodeCfg.resConfig, .stopC nodeCfg.containerID 1], .error e)
    | .ok _ =>
      match r.deleteNetnsSymlink nodeCfg.longName with
      | .error e =>
        ([.genConfig nodeCfg.resConfig, .stopC nodeCfg.containerID 1,
          .delNetnsSymlink nodeCfg.longName], .error e)
      | .ok _ =>
        match r.startContainer nodeCfg.containerID with
        | .error e =>
          ([.genConfig nodeCfg.resConfig, .stopC nodeCfg.containerID 1,
            .delNetnsSymlink nodeCfg.longName, .startC nodeCfg.containerID], .error e)
        | .ok _ =>
          match r.getNSPath nodeCfg.containerID with
          | .error e =>
            ([.genConfig nodeCfg.resConfig, .stopC nodeCfg.containerID 1,
              .delNetnsSymlink nodeCfg.longName, .startC nodeCfg.containerID,
              .getNSPathE nodeCfg.containerID], .error e)
          | .ok ns =>
            match r.linkContainerNS ns nodeCfg.longName with
            | .error e =>
              ([.genConfig nodeCfg.resConfig, .stopC nodeCfg.containerID 1,
                .delNetnsSymlink nodeCfg.longName, .startC nodeCfg.containerID,
                .getNSPathE nodeCfg.containerID, .linkNS ns nodeCfg.longName], .error e)
            | .ok _ =>
              ([.genConfig nodeCfg.resConfig, .stopC nodeCfg.containerID 1,
                .delNetnsSymlink nodeCfg.longName, .startC nodeCfg.containerID,
                .getNSPathE nodeCfg.containerID, .linkNS ns nodeCfg.longName],
               .ok { nodeCfg with nsPath := ns })

/-- Number of StopContainer calls against a given container ID in a trace. -/
def countStops (tr : List Effect) (id : String) : Nat :=
  tr.countP (fun ef => match ef with | .stopC i _ => i == id | _ => false)

/-- Number of StartContainer calls against a given container ID in a trace. -/
def countStarts (tr : List Effect) (id : String) : Nat :=
  tr.countP (fun ef => match ef with | .startC i => i == id | _ => false)

/-- The PostDeploy fan-out of deployCmd.RunE (cmd/deploy.go lines
147-159): one task per node runs its PostDeploy and the orchestrator
joins them all; the result pairs each node with its own outcome. -/
def postDeployFanOut (nodes : List NodeConfig) (pd : NodeConfig → Except Err Unit) :
    List (NodeConfig × Except Err Unit) :=
  nodes.map (fun n => (n, pd n))

/-- The same fan-out as the orchestrator observes it: per-node failures
are logged with the node's short name, and the phase itself returns
success unconditionally, so a node's failure never aborts the deploy. -/
def runPostDeployPhase (nodes : List NodeConfig) (pd : NodeConfig → Except Err Unit) :
    List (String × Err) × Except Err Unit :=
  (nodes.filterMap (fun n =>
    match pd n with
    | .error e => some (n.shortName, e)
    | .ok _ => none), .ok ())

/-- The two containers of the hosts-generation test vector: r1 with an
IPv4 address only, r2 with IPv4 and IPv6. -/
def hostsInputR1R2 : List GenericContainer :=
  [{ id := "c1", names := ["/r1"], labels := [],
     networkSettings :=
       { set := true, ipv4addr := "172.20.20.2", ipv4pLen := 24,
         ipv6addr := "", ipv6pLen := 0 } },
   { id := "c2", names := ["/r2"], labels := [],
     networkSettings :=
       { set := true, ipv4addr := "172.20.20.3", ipv4pLen := 24,
         ipv6addr := "2001:db8::3", ipv6pLen := 64 } }]

/-- A filesystem oracle whose calls all succeed. -/
def fsAllOk : FsOracle :=
  { openResult := .ok (), writeNewline := .ok (), writeData := .ok () }

/-- A ceos runtime whose calls all succeed. -/
def rtAllOk : CeosRuntime :=
  { generateConfig := fun _ => .ok ()
    stopContainer := fun _ => .ok ()
    deleteNetnsSymlink := fun _ => .ok ()
    startContainer := fun _ => .ok ()
    getNSPath := fun _ => .ok "/proc/4242/ns/net"
    linkContainerNS := fun _ _ => .ok () }

/-- A ceos runtime whose config rendering fails. -/
def rtGenFails : CeosRuntime :=
  { generateConfig := fun _ => .error "render failed"
    stopContainer := fun _ => .ok ()
    deleteNetnsSymlink := fun _ => .ok ()
    startContainer := fun _ => .ok ()
    getNSPath := fun _ => .ok "/proc/4242/ns/net"
    linkContainerNS := fun _ _ => .ok () }

/-- A concrete cEOS node configuration after enrichment. -/
def ceosNodeA : NodeConfig :=
  { shortName := "ceos1", longName := "clab-lab1-ceos1", containerID := "abc123"
    resConfig := "/root/clab-lab1/ceos1/flash/startup-config"
    nsPath := "", macAddress := "00:1c:73:aa:bb:ff", labDir := "/root/clab-lab1/ceos1" }

/-- A second concrete node whose PostDeploy is made to fail. -/
def ceosNodeB : NodeConfig :=
  { shortName := "ceos2", longName := "clab-lab1-ceos2", containerID := "def456"
    resConfig := "/root/clab-lab1/ceos2/flash/startup-config"
    nsPath := "", macAddress := "00:1c:73:00:00:01", labDir := "/root/clab-lab1/ceos2" }

/-- A PostDeploy outcome function failing exactly for ceosNodeB. -/
def pdFailB (n : NodeConfig) : Except Err Unit :=
  if n.shortName = "ceos2" then .error "postdeploy failed" else .ok ()

/-- A container labelled for node r1. -/
def contR1 : GenericContainer :=
  { id := "c1", names := ["/clab-lab1-r1"], labels := [("clab-node-name", "r1")],
    networkSettings :=
      { set := true, ipv4addr := "172.20.20.2", ipv4pLen := 24,
        ipv6addr := "2001:db8::2", ipv6pLen := 64 } }

/-- A node r1 that uses host networking, spelled with capitals to exercise
the case-insensitive comparison. -/
def nodeR1Host : NodeBase :=
  { shortName := "r1", networkMode := "HOST", mgmtIPv4Address := "10.0.0.1",
    mgmtIPv4PrefixLength := 8, mgmtIPv6Address := "", mgmtIPv6PrefixLength := 0,
    containerID := "old" }

/-- A node r1 using bridged networking. -/
def nodeR1Bridge : NodeBase :=
  { shortName := "r1", networkMode := "bridge", mgmtIPv4Address := "",
    mgmtIPv4PrefixLength := 0, mgmtIPv6Address := "", mgmtIPv6PrefixLength := 0,
    containerID := "" }

/-- A node map holding only the host-networking r1. -/
def mapR1Host : NodeMap :=
  fun x => if x = "r1" then some nodeR1Host else none

/-- A node map holding only the bridged r1. -/
def mapR1Bridge : NodeMap :=
  fun x => if x = "r1" then some nodeR1Bridge else none

/-- A container whose network settings are not populated. -/
def contNoNet : GenericContainer :=
  { id := "c9", names := ["/r9"], labels := [],
    networkSettings :=
      { set := false, ipv4addr := "", ipv4pLen := 0, ipv6addr := "", ipv6pLen := 0 } }

/-- A single container's hosts contribution is empty when its network
settings are not populated. -/
theorem hostsEntryOf_not_set {c : GenericContainer}
    (h : c.networkSettings.set = false) : hostsEntryOf c = "" := by
  unfold hostsEntryOf
  rw [h]
  split <;> rfl

/-- Folding the hosts buffer over containers that all contribute nothing
leaves the accumulator unchanged. -/
theorem hostsEntries_fold_empty {cs : List GenericContainer}
    (h : ∀ c ∈ cs, hostsEntryOf c = "") :
    ∀ acc : String, cs.foldl (fun buff cont => buff ++ hostsEntryOf cont) acc = acc := by
  induction cs with
  | nil => intro acc; rfl
  | cons c cs ih =>
    intro acc
    rw [List.foldl_cons, h c (List.mem_cons_self c cs), String.append_empty]
    exact ih (fun c2 hc2 => h c2 (List.mem_cons_of_mem c hc2)) acc

/-- C3: for every configured maximum worker count M and item count N, the
limit L satisfies 1 <= L <= N whenever N >= 1; L = N when M = 0, and
L = min M N otherwise. -/
theorem worker_limit_bounds (m n : Nat) :
    (1 ≤ n → 1 ≤ computeWorkers m n ∧ computeWorkers m n ≤ n) ∧
    (m = 0 → computeWorkers m n = n) ∧
    (m ≠ 0 → computeWorkers m n = min m n) := by
  simp only [computeWorkers]
  refine ⟨?_, ?_, ?_⟩ <;> intro h <;> split <;> split <;> omega

/-- Witness for worker_limit_bounds at concrete inputs. -/
theorem worker_limit_bounds_witness :
    (1 ≤ computeWorkers 3 2 ∧ computeWorkers 3 2 ≤ 2) ∧
    computeWorkers 0 5 = 5 ∧ computeWorkers 3 7 = min 3 7 :=
  ⟨(worker_limit_bounds 3 2).1 (by decide),
   (worker_limit_bounds 0 5).2.1 rfl,
   (worker_limit_bounds 3 7).2.2 (by decide)⟩

/-- C4, counterexample: on the given containers and bridge "clab" the
blob carries one line for r1's IPv4, not two as claimed. -/
theorem hosts_entries_r1_line_count_not_two :
    ¬ ((linesOf (hostsEntries hostsInputR1R2 "clab")).countP
        (fun l => l == "172.20.20.2\tr1") = 2) := by decide

/-- C4, amended: on the given containers and bridge "clab" the blob is
exactly one line for r1 (its IPv4) followed by two lines for r2 (IPv4
then IPv6), each of the form address, tab, name, newline, with no leading
slash in the name. -/
theorem hosts_entries_concrete_blob :
    hostsEntries hostsInputR1R2 "clab" =
      "172.20.20.2\tr1\n172.20.20.3\tr2\n2001:db8::3\tr2\n" ∧
    linesOf (hostsEntries hostsInputR1R2 "clab") =
      ["172.20.20.2\tr1", "172.20.20.3\tr2", "2001:db8::3\tr2"] := by decide

/-- C6: hosts generation with an empty bridge name and at least one
eligible container returns an error, and with zero eligible containers
(no container has populated network settings) the blob is empty
regardless of the bridge name. -/
theorem hosts_generation_empty_bridge_and_no_eligible :
    (∀ (fs : FsOracle) (containers : List GenericContainer),
       (∃ c ∈ containers, c.networkSettings.set = true) →
       ∃ e, (createHostsFile fs containers "").2 = .error e) ∧
    (∀ (containers : List GenericContainer) (bridgeName : String),
       (∀ c ∈ containers, c.networkSettings.set = false) →
       hostsEntries containers bridgeName = "") := by
  constructor
  · intro fs containers _
    exact ⟨"missing bridge name", rfl⟩
  · intro containers bridgeName h
    exact hostsEntries_fold_empty
      (fun c hc => hostsEntryOf_not_set (h c hc)) ""

/-- Witness for hosts_generation_empty_bridge_and_no_eligible. -/
theorem hosts_generation_empty_bridge_and_no_eligible_witness :
    (∃ e, (createHostsFile fsAllOk hostsInputR1R2 "").2 = .error e) ∧
    hostsEntries [contNoNet] "clab" = "" :=
  ⟨hosts_generation_empty_bridge_and_no_eligible.1 fsAllOk hostsInputR1R2 (by decide),
   hosts_generation_empty_bridge_and_no_eligible.2 [contNoNet] "clab" (by decide)⟩

/-- C9: when the hosts blob is empty and the bridge name is not, the write
performs no filesystem operation at all and returns success. -/
theorem hosts_write_zero_data_noop (fs : FsOracle)
    (containers : List GenericContainer) (bridgeName : String)
    (hb : bridgeName ≠ "") (hd : hostsEntries containers bridgeName = "") :
    createHostsFile fs containers bridgeName = ([], .ok ()) := by
  simp [createHostsFile, hb, hd]

/-- Witness for hosts_write_zero_data_noop. -/
theorem hosts_write_zero_data_noop_witness :
    createHostsFile fsAllOk [contNoNet] "clab" = ([], .ok ()) :=
  hosts_write_zero_data_noop fsAllOk [contNoNet] "clab" (by decide) rfl

/-- C2: ceos.Init builds the command line by ranging over the merged
environment map; Go's map range order is unspecified, and two orders of
the same entry set produce different Cmd strings, so the serialization is
not deterministic in the merged map. -/
theorem ceos_cmd_depends_on_iteration_order :
    ceosEnv.Perm ceosEnv.reverse ∧
    ceosCmdOfEnvOrder ceosEnv ≠ ceosCmdOfEnvOrder ceosEnv.reverse :=
  ⟨(List.reverse_perm ceosEnv).symm, by decide⟩

/-- C1: when ceosPostDeploy succeeds, the effects occurred in exactly this
order - config rendered to the startup-config path, container stopped,
netns symlink removed, container started, new namespace path resolved,
symlink re-created at that path - with exactly one stop and one start
against the node's container ID, and the node records the new namespace
path. -/
theorem ceos_postdeploy_success_sequence (r : CeosRuntime) (cfg cfg2 : NodeConfig)
    (h : (ceosPostDeploy r cfg).2 = .ok cfg2) :
    ∃ ns, r.getNSPath cfg.containerID = .ok ns ∧
      cfg2 = { cfg with nsPath := ns } ∧
      (ceosPostDeploy r cfg).1 =
        [.genConfig cfg.resConfig, .stopC cfg.containerID 1,
         .delNetnsSymlink cfg.longName, .startC cfg.containerID,
         .getNSPathE cfg.containerID, .linkNS ns cfg.longName] ∧
      countStops (ceosPostDeploy r cfg).1 cfg.containerID = 1 ∧
      countStarts (ceosPostDeploy r cfg).1 cfg.containerID = 1 := by
  cases hg : r.generateConfig cfg.resConfig with
  | error e => simp [ceosPostDeploy, hg] at h
  | ok u1 =>
    cases hs : r.stopContainer cfg.containerID with
    | error e => simp [ceosPostDeploy, hg, hs] at h
    | ok u2 =>
      cases hdl : r.deleteNetnsSymlink cfg.longName with
      | error e => simp [ceosPostDeploy, hg, hs, hdl] at h
      | ok u3 =>
        cases hst : r.startContainer cfg.containerID with
        | error e => simp [ceosPostDeploy, hg, hs, hdl, hst] at h
        | ok u4 =>
          cases hn : r.getNSPath cfg.containerID with
          | error e => simp [ceosPostDeploy, hg, hs, hdl, hst, hn] at h
          | ok ns =>
            cases hl : r.linkContainerNS ns cfg.longName with
            | error e => simp [ceosPostDeploy, hg, hs, hdl, hst, hn, hl] at h
            | ok u6 =>
              refine ⟨ns, rfl, ?_, ?_, ?_, ?_⟩
              · simp [ceosPostDeploy, hg, hs, hdl, hst, hn, hl] at h
                exact h.symm
              · simp [ceosPostDeploy, hg, hs, hdl, hst, hn, hl]
              · simp [ceosPostDeploy, countStops, hg, hs, hdl, hst, hn, hl,
                      List.countP_cons]
              · simp [ceosPostDeploy, countStarts, hg, hs, hdl, hst, hn, hl,
                      List.countP_cons]

/-- Witness for ceos_postdeploy_success_sequence on an all-success runtime. -/
theorem ceos_postdeploy_success_sequence_witness :
    (ceosPostDeploy rtAllOk ceosNodeA).2 =
      .ok { ceosNodeA with nsPath := "/proc/4242/ns/net" } ∧
    (∃ ns, rtAllOk.getNSPath ceosNodeA.containerID = .ok ns ∧
      { ceosNodeA with nsPath := "/proc/4242/ns/net" } = { ceosNodeA with nsPath := ns } ∧
      (ceosPostDeploy rtAllOk ceosNodeA).1 =
        [.genConfig ceosNodeA.resConfig, .stopC ceosNodeA.containerID 1,
         .delNetnsSymlink ceosNodeA.longName, .startC ceosNodeA.containerID,
         .getNSPathE ceosNodeA.containerID, .linkNS ns ceosNodeA.longName] ∧
      countStops (ceosPostDeploy rtAllOk ceosNodeA).1 ceosNodeA.containerID = 1 ∧
      countStarts (ceosPostDeploy rtAllOk ceosNodeA).1 ceosNodeA.containerID = 1) :=
  ⟨rfl, ceos_postdeploy_success_sequence rtAllOk ceosNodeA
          { ceosNodeA with nsPath := "/proc/4242/ns/net" } rfl⟩

/-- C5: a failure at any protocol step stops ceosPostDeploy there - the
trace holds exactly the steps up to and including the failing call, and
the failure is the returned error - and the orchestrator's fan-out runs
every node's PostDeploy, logs a failing node's error under its name, and
itself returns success, so one node's failure aborts neither the other
nodes nor the deployment. -/
theorem ceos_postdeploy_failure_prefix_and_fail_soft :
    (∀ (r : CeosRuntime) (cfg : NodeConfig) (e : Err),
       r.generateConfig cfg.resConfig = .error e →
       ceosPostDeploy r cfg = ([.genConfig cfg.resConfig], .error e)) ∧
    (∀ (r : CeosRuntime) (cfg : NodeConfig) (e : Err),
       r.generateConfig cfg.resConfig = .ok () →
       r.stopContainer cfg.containerID = .error e →
       ceosPostDeploy r cfg =
         ([.genConfig cfg.resConfig, .stopC cfg.containerID 1], .error e)) ∧
    (∀ (r : CeosRuntime) (cfg : NodeConfig) (e : Err),
       r.generateConfig cfg.resConfig = .ok () →
       r.stopContainer cfg.containerID = .ok () →
       r.deleteNetnsSymlink cfg.longName = .error e →
       ceosPostDeploy r cfg =
         ([.genConfig cfg.resConfig, .stopC cfg.containerID 1,
           .delNetnsSymlink cfg.longName], .error e)) ∧
    (∀ (r : CeosRuntime) (cfg : NodeConfig) (e : Err),
       r.generateConfig cfg.resConfig = .ok () →
       r.stopContainer cfg.containerID = .ok () →
       r.deleteNetnsSymlink cfg.longName = .ok () →
       r.startContainer cfg.containerID = .error e →
       ceosPostDeploy r cfg =
         ([.genConfig cfg.resConfig, .stopC cfg.containerID 1,
           .delNetnsSymlink cfg.longName, .startC cfg.containerID], .error e)) ∧
    (∀ (r : CeosRuntime) (cfg : NodeConfig) (e : Err),
       r.generateConfig cfg.resConfig = .ok () →
       r.stopContainer cfg.containerID = .ok () →
       r.deleteNetnsSymlink cfg.longName = .ok () →
       r.startContainer cfg.containerID = .ok () →
       r.getNSPath cfg.containerID = .error e →
       ceosPostDeploy r cfg =
         ([.genConfig cfg.resConfig, .stopC cfg.containerID 1,
           .delNetnsSymlink cfg.longName, .startC cfg.containerID,
           .getNSPathE cfg.containerID], .error e)) ∧
    (∀ (r : CeosRuntime) (cfg : NodeConfig) (ns : String) (e : Err),
       r.generateConfig cfg.resConfig = .ok () →
       r.stopContainer cfg.containerID = .ok () →
       r.deleteNetnsSymlink cfg.longName = .ok () →
       r.startContainer cfg.containerID = .ok () →
       r.getNSPath cfg.containerID = .ok ns →
       r.linkContainerNS ns cfg.longName = .error e →
       ceosPostDeploy r cfg =
         ([.genConfig cfg.resConfig, .stopC cfg.containerID 1,
           .delNetnsSymlink cfg.longName, .startC cfg.containerID,
           .getNSPathE cfg.containerID, .linkNS ns cfg.longName], .error e)) ∧
    (∀ (nodes : List NodeConfig) (pd : NodeConfig → Except Err Unit),
       (runPostDeployPhase nodes pd).2 = .ok ()) ∧
    (∀ (nodes : List NodeConfig) (pd : NodeConfig → Except Err Unit)
       (n : NodeConfig), n ∈ nodes → (n, pd n) ∈ postDeployFanOut nodes pd) ∧
    (∀ (nodes : List NodeConfig) (pd : NodeConfig → Except Err Unit)
       (n : NodeConfig) (e : Err), n ∈ nodes → pd n = .error e →
       (n.shortName, e) ∈ (runPostDeployPhase nodes pd).1) := by
  refine ⟨?_, ?_, ?_, ?_, ?_, ?_, ?_, ?_, ?_⟩
  · intro r cfg e h1
    simp [ceosPostDeploy, h1]
  · intro r cfg e h1 h2
    simp [ceosPostDeploy, h1, h2]
  · intro r cfg e h1 h2 h3
    simp [ceosPostDeploy, h1, h2, h3]
  · intro r cfg e h1 h2 h3 h4
    simp [ceosPostDeploy, h1, h2, h3, h4]
  · intro r cfg e h1 h2 h3 h4 h5
    simp [ceosPostDeploy, h1, h2, h3, h4, h5]
  · intro r cfg ns e h1 h2 h3 h4 h5 h6
    simp [ceosPostDeploy, h1, h2, h3, h4, h5, h6]
  · intro nodes pd
    rfl
  · intro nodes pd n hn
    exact List.mem_map_of_mem (fun n2 => (n2, pd n2)) hn
  · intro nodes pd n e hn he
    refine List.mem_filterMap.mpr ⟨n, hn, ?_⟩
    simp [he]

/-- Witness for ceos_postdeploy_failure_prefix_and_fail_soft: a failing
config render stops the protocol at step one, and in a two-node lab the
second node's failure is logged while the phase still succeeds and both
nodes' PostDeploy ran. -/
theorem ceos_postdeploy_failure_prefix_and_fail_soft_witness :
    ceosPostDeploy rtGenFails ceosNodeA =
      ([.genConfig ceosNodeA.resConfig], .error "render failed") ∧
    (runPostDeployPhase [ceosNodeA, ceosNodeB] pdFailB).2 = .ok () ∧
    (ceosNodeB, pdFailB ceosNodeB) ∈ postDeployFanOut [ceosNodeA, ceosNodeB] pdFailB ∧
    (ceosNodeB.shortName, "postdeploy failed") ∈
      (runPostDeployPhase [ceosNodeA, ceosNodeB] pdFailB).1 :=
  ⟨ceos_postdeploy_failure_prefix_and_fail_soft.1 rtGenFails ceosNodeA
     "render failed" rfl,
   ceos_postdeploy_failure_prefix_and_fail_soft.2.2.2.2.2.2.1
     [ceosNodeA, ceosNodeB] pdFailB,
   ceos_postdeploy_failure_prefix_and_fail_soft.2.2.2.2.2.2.2.1
     [ceosNodeA, ceosNodeB] pdFailB ceosNodeB
     (List.mem_cons_of_mem ceosNodeA (List.mem_cons_self ceosNodeB [])),
   ceos_postdeploy_failure_prefix_and_fail_soft.2.2.2.2.2.2.2.2
     [ceosNodeA, ceosNodeB] pdFailB ceosNodeB "postdeploy failed"
     (List.mem_cons_of_mem ceosNodeA (List.mem_cons_self ceosNodeB [])) rfl⟩

/-- A list of length six is an explicit six-element list. -/
theorem length_six_explicit {α : Type} (m : List α) (hl : m.length = 6) :
    ∃ a b c d e f, m = [a, b, c, d, e, f] := by
  rcases m with _ | ⟨a, m⟩
  · simp at hl
  rcases m with _ | ⟨b, m⟩
  · simp at hl
  rcases m with _ | ⟨c, m⟩
  · simp at hl
  rcases m with _ | ⟨d, m⟩
  · simp at hl
  rcases m with _ | ⟨e, m⟩
  · simp at hl
  rcases m with _ | ⟨f, m⟩
  · simp at hl
  rcases m with _ | ⟨g, m⟩
  · exact ⟨a, b, c, d, e, f, rfl⟩
  · simp at hl

/-- C8: for a node whose management MAC parses to six bytes,
createCEOSFiles succeeds and the derived system MAC it writes equals the
management MAC with only the last byte changed, the new last byte being
the old one plus one modulo 256. -/
theorem ceos_sysmac_last_octet_increment (node : NodeConfig) (m : List Nat)
    (hp : parseMAC node.macAddress = some m) (hl : m.length = 6) :
    createCEOSFiles node =
      .ok ({ node with resConfig := node.labDir ++ "/flash/startup-config" },
           node.labDir ++ "/flash/system_mac_address",
           macString (sysMacOfMgmt m)) ∧
    (sysMacOfMgmt m).length = 6 ∧
    (sysMacOfMgmt m).getD 5 0 = (m.getD 5 0 + 1) % 256 ∧
    (∀ i, i < 5 → (sysMacOfMgmt m).getD i 0 = m.getD i 0) := by
  obtain ⟨a, b, c, d, e, f, rfl⟩ := length_six_explicit m hl
  refine ⟨by simp [createCEOSFiles, hp], rfl, rfl, ?_⟩
  intro i hi
  interval_cases i <;> rfl

/-- Witness for ceos_sysmac_last_octet_increment at a MAC whose last byte
is 0xff, exercising the wrap to 0x00. -/
theorem ceos_sysmac_last_octet_increment_witness :
    parseMAC ceosNodeA.macAddress = some [0, 28, 115, 170, 187, 255] ∧
    (createCEOSFiles ceosNodeA =
      .ok ({ ceosNodeA with resConfig := ceosNodeA.labDir ++ "/flash/startup-config" },
           ceosNodeA.labDir ++ "/flash/system_mac_address",
           macString (sysMacOfMgmt [0, 28, 115, 170, 187, 255])) ∧
     (sysMacOfMgmt [0, 28, 115, 170, 187, 255]).length = 6 ∧
     (sysMacOfMgmt [0, 28, 115, 170, 187, 255]).getD 5 0 =
       ([0, 28, 115, 170, 187, 255].getD 5 0 + 1) % 256 ∧
     (∀ i, i < 5 → (sysMacOfMgmt [0, 28, 115, 170, 187, 255]).getD i 0 =
        [0, 28, 115, 170, 187, 255].getD i 0)) :=
  ⟨by decide,
   ceos_sysmac_last_octet_increment ceosNodeA [0, 28, 115, 170, 187, 255]
     (by decide) rfl⟩

/-- applyContainer never changes the node's network mode. -/
theorem applyContainer_mode (c : GenericContainer) (n : NodeBase) :
    (applyContainer c n).networkMode = n.networkMode := by
  unfold applyContainer
  by_cases hs : c.networkSettings.set <;> simp [hs]

/-- stepNode never changes the node's network mode. -/
theorem stepNode_mode (n : NodeBase) (c : GenericContainer) :
    (stepNode n c).networkMode = n.networkMode := by
  unfold stepNode
  split
  · rfl
  · exact applyContainer_mode c n

/-- Enrichment leaves a host-networking node untouched. -/
theorem applySeq_host {n : NodeBase} (h : goToLower n.networkMode = "host")
    (cs : List GenericContainer) : applySeq cs n = n := by
  induction cs with
  | nil => rfl
  | cons c cs ih =>
    have hstep : stepNode n c = n := by simp [stepNode, h]
    calc applySeq (c :: cs) n = applySeq cs (stepNode n c) := rfl
    _ = applySeq cs n := by rw [hstep]
    _ = n := ih

/-- On a non-host node, enrichment is the unconditional sequence of
container applications. -/
theorem applySeq_not_host {n : NodeBase} (h : ¬ goToLower n.networkMode = "host")
    (cs : List GenericContainer) : applySeq cs n = applyAll cs n := by
  induction cs generalizing n with
  | nil => rfl
  | cons c cs ih =>
    have hstep : stepNode n c = applyContainer c n := by simp [stepNode, h]
    have h2 : ¬ goToLower (applyContainer c n).networkMode = "host" := by
      rw [applyContainer_mode]; exact h
    calc applySeq (c :: cs) n = applySeq cs (stepNode n c) := rfl
    _ = applySeq cs (applyContainer c n) := by rw [hstep]
    _ = applyAll cs (applyContainer c n) := ih h2
    _ = applyAll (c :: cs) n := rfl

/-- Closed form of the unconditional application sequence: last writer
wins on the container ID, last flagged writer wins on each management
field, everything else is untouched. -/
theorem applyAll_closed (cs : List GenericContainer) (n : NodeBase) :
    applyAll cs n =
      { n with
        containerID := lastIdD cs n.containerID
        mgmtIPv4Address :=
          lastSetVal (fun c => c.networkSettings.ipv4addr) cs n.mgmtIPv4Address
        mgmtIPv4PrefixLength :=
          lastSetVal (fun c => c.networkSettings.ipv4pLen) cs n.mgmtIPv4PrefixLength
        mgmtIPv6Address :=
          lastSetVal (fun c => c.networkSettings.ipv6addr) cs n.mgmtIPv6Address
        mgmtIPv6PrefixLength :=
          lastSetVal (fun c => c.networkSettings.ipv6pLen) cs n.mgmtIPv6PrefixLength } := by
  induction cs generalizing n with
  | nil => rfl
  | cons c cs ih =>
    have hcons : applyAll (c :: cs) n = applyAll cs (applyContainer c n) := rfl
    rw [hcons, ih]
    by_cases hs : c.networkSettings.set <;>
      simp [applyContainer, lastIdD, lastSetVal, List.foldl_cons, hs]

/-- Re-running the last-writer fold for the container ID is a no-op. -/
theorem lastIdD_idem (cs : List GenericContainer) (d : String) :
    lastIdD cs (lastIdD cs d) = lastIdD cs d := by
  cases cs with
  | nil => rfl
  | cons c cs => rfl

/-- Re-running the last-flagged-writer fold is a no-op. -/
theorem lastSetVal_idem {α : Type} (f : GenericContainer → α)
    (cs : List GenericContainer) (d : α) :
    lastSetVal f cs (lastSetVal f cs d) = lastSetVal f cs d := by
  induction cs generalizing d with
  | nil => rfl
  | cons c cs ih =>
    by_cases hs : c.networkSettings.set
    · simp [lastSetVal, List.foldl_cons, hs]
    · simpa [lastSetVal, List.foldl_cons, hs] using ih d

/-- The unconditional application sequence is idempotent. -/
theorem applyAll_idem (cs : List GenericContainer) (n : NodeBase) :
    applyAll cs (applyAll cs n) = applyAll cs n := by
  simp [applyAll_closed, lastIdD_idem, lastSetVal_idem]

/-- Enrichment never changes the node's network mode. -/
theorem applySeq_mode (cs : List GenericContainer) (n : NodeBase) :
    (applySeq cs n).networkMode = n.networkMode := by
  induction cs generalizing n with
  | nil => rfl
  | cons c cs ih =>
    calc (applySeq (c :: cs) n).networkMode
        = (applySeq cs (stepNode n c)).networkMode := rfl
    _ = (stepNode n c).networkMode := ih (stepNode n c)
    _ = n.networkMode := stepNode_mode n c

/-- The per-node application sequence is idempotent. -/
theorem applySeq_idem (cs : List GenericContainer) (n : NodeBase) :
    applySeq cs (applySeq cs n) = applySeq cs n := by
  by_cases h : goToLower n.networkMode = "host"
  · rw [applySeq_host h, applySeq_host h]
  · have h2 : ¬ goToLower (applySeq cs n).networkMode = "host" := by
      rw [applySeq_mode]; exact h
    rw [applySeq_not_host h2, applySeq_not_host h, applyAll_idem,
        ← applySeq_not_host h]

/-- Unfolding one loop iteration of enrichNodes. -/
theorem enrichNodes_cons (c : GenericContainer) (cs : List GenericContainer)
    (m : NodeMap) (mg : String) :
    enrichNodes (c :: cs) m mg = enrichNodes cs (enrichStepMap m c) mg := rfl

/-- Pointwise characterization of enrichNodes: each node's final value is
the sequential application of exactly the containers labelled with its
name, and absent names stay absent. -/
theorem enrichNodes_pointwise (cs : List GenericContainer) (m : NodeMap)
    (mgmtNet x : String) :
    enrichNodes cs m mgmtNet x =
      match m x with
      | none => none
      | some n => some (applySeq (cs.filter (fun c => contNodeName c == x)) n) := by
  induction cs generalizing m with
  | nil =>
    cases hm : m x <;> simp [enrichNodes, applySeq, hm]
  | cons c cs ih =>
    rw [enrichNodes_cons, ih]
    by_cases hx : contNodeName c = x
    · subst hx
      cases hm : m (contNodeName c) with
      | none =>
        simp [enrichStepMap, hm]
      | some node =>
        by_cases hh : goToLower node.networkMode = "host"
        · simp [enrichStepMap, hm, hh, List.filter_cons, applySeq, stepNode]
        · simp [enrichStepMap, hm, hh, updateNode, List.filter_cons, applySeq, stepNode]
    · have hfc : (c :: cs).filter (fun c2 => contNodeName c2 == x) =
          cs.filter (fun c2 => contNodeName c2 == x) := by
        simp [List.filter_cons, hx]
      rw [hfc]
      have hFx : enrichStepMap m c x = m x := by
        unfold enrichStepMap
        cases hm : m (contNodeName c) with
        | none => rfl
        | some node =>
          by_cases hh : goToLower node.networkMode = "host"
          · simp [hh]
          · simp only [hh, if_false]
            unfold updateNode
            rw [if_neg (fun hxe => hx hxe.symm)]
      rw [hFx]

/-- C7: enrichment is idempotent - for every fixed container list, node
map and management-network name, applying enrichNodes twice leaves every
node's value equal to its value after one application. -/
theorem enrich_nodes_idempotent (containers : List GenericContainer)
    (nodes : NodeMap) (mgmtNet x : String) :
    enrichNodes containers (enrichNodes containers nodes mgmtNet) mgmtNet x =
      enrichNodes containers nodes mgmtNet x := by
  simp only [enrichNodes_pointwise]
  cases hm : nodes x with
  | none => rfl
  | some n => simp [applySeq_idem]

/-- C10: for a container matched to a node, a host-mode node (checked
case-insensitively) is left fully unmodified; otherwise the container ID
is always set from the container, the four management address and prefix
fields are copied exactly when the container's network settings are
populated and left unchanged when not, and no other node is touched. -/
theorem enrich_frame_conditions (c : GenericContainer) (m : NodeMap)
    (mgmtNet : String) (node : NodeBase)
    (hm : m (contNodeName c) = some node) :
    (goToLower node.networkMode = "host" →
       ∀ y, enrichNodes [c] m mgmtNet y = m y) ∧
    (goToLower node.networkMode ≠ "host" →
       ∃ node2,
         enrichNodes [c] m mgmtNet (contNodeName c) = some node2 ∧
         (∀ y, y ≠ contNodeName c → enrichNodes [c] m mgmtNet y = m y) ∧
         node2.containerID = c.id ∧
         node2.shortName = node.shortName ∧
         node2.networkMode = node.networkMode ∧
         (c.networkSettings.set = true →
            node2.mgmtIPv4Address = c.networkSettings.ipv4addr ∧
            node2.mgmtIPv4PrefixLength = c.networkSettings.ipv4pLen ∧
            node2.mgmtIPv6Address = c.networkSettings.ipv6addr ∧
            node2.mgmtIPv6PrefixLength = c.networkSettings.ipv6pLen) ∧
         (c.networkSettings.set = false →
            node2.mgmtIPv4Address = node.mgmtIPv4Address ∧
            node2.mgmtIPv4PrefixLength = node.mgmtIPv4PrefixLength ∧
            node2.mgmtIPv6Address = node.mgmtIPv6Address ∧
            node2.mgmtIPv6PrefixLength = node.mgmtIPv6PrefixLength)) := by
  have hone : enrichNodes [c] m mgmtNet = enrichStepMap m c := rfl
  constructor
  · intro hh y
    rw [hone]
    unfold enrichStepMap
    simp only [hm]
    rw [if_pos hh]
  · intro hh
    refine ⟨applyContainer c node, ?_, ?_, ?_, ?_, ?_, ?_, ?_⟩
    · rw [hone]
      unfold enrichStepMap
      simp only [hm]
      rw [if_neg hh]
      unfold updateNode
      rw [if_pos rfl]
    · intro y hy
      rw [hone]
      unfold enrichStepMap
      simp only [hm]
      rw [if_neg hh]
      unfold updateNode
      rw [if_neg hy]
    · rfl
    · by_cases hs : c.networkSettings.set <;> simp [applyContainer, hs]
    · exact applyContainer_mode c node
    · intro hs
      simp [applyContainer, hs]
    · intro hs
      simp [applyContainer, hs]

/-- Witness for enrich_frame_conditions: a HOST-mode node is untouched,
and a bridged node receives the container's ID and addresses. -/
theorem enrich_frame_conditions_witness :
    (∀ y, enrichNodes [contR1] mapR1Host "clab" y = mapR1Host y) ∧
    (∃ node2,
       enrichNodes [contR1] mapR1Bridge "clab" (contNodeName contR1) = some node2 ∧
       (∀ y, y ≠ contNodeName contR1 →
          enrichNodes [contR1] mapR1Bridge "clab" y = mapR1Bridge y) ∧
       node2.containerID = contR1.id ∧
       node2.shortName = nodeR1Bridge.shortName ∧
       node2.networkMode = nodeR1Bridge.networkMode ∧
       (contR1.networkSettings.set = true →
          node2.mgmtIPv4Address = contR1.networkSettings.ipv4addr ∧
          node2.mgmtIPv4PrefixLength = contR1.networkSettings.ipv4pLen ∧
          node2.mgmtIPv6Address = contR1.networkSettings.ipv6addr ∧
          node2.mgmtIPv6PrefixLength = contR1.networkSettings.ipv6pLen) ∧
       (contR1.networkSettings.set = false →
          node2.mgmtIPv4Address = nodeR1Bridge.mgmtIPv4Address ∧
          node2.mgmtIPv4PrefixLength = nodeR1Bridge.mgmtIPv4PrefixLength ∧
          node2.mgmtIPv6Address = nodeR1Bridge.mgmtIPv6Address ∧
          node2.mgmtIPv6PrefixLength = nodeR1Bridge.mgmtIPv6PrefixLength)) :=
  ⟨(enrich_frame_conditions contR1 mapR1Host "clab" nodeR1Host rfl).1 rfl,
   (enrich_frame_conditions contR1 mapR1Bridge "clab" nodeR1Bridge rfl).2
     (by decide)⟩
